import Mathlib

/-!
Verification of the EcoPulse Observation Trust and Integrity Engine

Shallow embedding, in Lean 4, of the observation-handling code of the
EcoPulse citizen-science platform, together with theorems settling the
frozen specification claims.

Conventions of the embedding:
* JavaScript numbers are modelled as rationals (`ℚ`); timestamps are
  modelled on an integer day line (`ℤ`), matching the day-granularity
  arithmetic (`setDate`, `±W` days) in the source.
* `Math.random()` draws are passed in explicitly as parameters `u v : ℚ`
  with `0 ≤ u` and `u < 1`.
* `Math.cos(lat * π / 180)` is not a rational function, so the blurring
  code takes the cosine value as an explicit parameter `c : ℚ`; the
  JavaScript runtime never produces exactly `0` for it, which is recorded
  as a hypothesis `c ≠ 0` where the distinction matters.
* String parsing done by `parseFloat` / `new Date(...)` is abstracted as
  explicit parameters `pf : String → Option ℚ` and `pd : String → Option ℤ`;
  `none` models `NaN` / an invalid date.
-/

namespace EcoPulse

/-- Model of `x.toFixed(6)` followed by `parseFloat`: rounding to
six decimal places on `ℚ`. -/
def round6 (q : ℚ) : ℚ := (round (q * 1000000) : ℤ) / 1000000

/-- A latitude/longitude pair (`{ lat, lng }` object in the source). -/
structure Coord where
  lat : ℚ
  lng : ℚ
  deriving DecidableEq, Repr

/-! Location Privacy Transform (`UV_GEOFENCE_WARNING`, part_003)

`applyCoordinateBlurring` in the source:

```js
const latOffset = (radius / 111) * (Math.random() - 0.5);
const lngOffset = (radius / (111 * Math.cos(coordinates.lat * Math.PI / 180))) * (Math.random() - 0.5);
return {
  lat: parseFloat((coordinates.lat + latOffset).toFixed(6)),
  lng: parseFloat((coordinates.lng + lngOffset).toFixed(6))
};
```
-/

/-- The latitude offset `(radius / 111) * (u - 0.5)` in degrees, where `u`
is the `Math.random()` draw. -/
def latOffset (radius u : ℚ) : ℚ := (radius / 111) * (u - 1/2)

/-- The longitude offset `(radius / (111 * c)) * (v - 0.5)` in degrees,
where `c` is the value of `Math.cos(lat * π / 180)` and `v` the
`Math.random()` draw. -/
def lngOffset (radius c v : ℚ) : ℚ := (radius / (111 * c)) * (v - 1/2)

/-- The function `applyCoordinateBlurring` of `UV_GEOFENCE_WARNING`: perturb the
coordinate by the two per-axis offsets and round both axes to six decimal
places. -/
def applyCoordinateBlurring (coordinates : Coord) (radius : ℚ) (c u v : ℚ) : Coord :=
  { lat := round6 (coordinates.lat + latOffset radius u)
    lng := round6 (coordinates.lng + lngOffset radius c v) }

/-- A geofence rule as delivered by `GET /api/geofence/rules`
(`geofenceRuleSchema` in part_003). -/
structure GeofenceRule where
  zone_id : String
  iucn_category : String
  geometry : String
  buffer_zone_size : ℚ
  blur_radius : ℚ
  deriving DecidableEq, Repr

/-- The zone-status flags held in component state
(`isInBufferZone`, `isInProtectedZone`). -/
structure ZoneFlags where
  isInBufferZone : Bool
  isInProtectedZone : Bool
  deriving DecidableEq, Repr

/-- The zone the component works with: `geofenceRules.rules[0]`
("Simplified for example" in the source) — the first rule, irrespective of
blur radii. -/
def relevantZone (rules : List GeofenceRule) : Option GeofenceRule := rules.head?

/-- The zone-classification effect of `UV_GEOFENCE_WARNING` (lines
435–457): given the haversine distance `distanceToZone` from the raw
coordinate to the current map center, set the buffer flag when
`distanceToZone ≤ buffer_zone_size`, the protected flag when it is at most
`buffer_zone_size + 1000` ("Placeholder threshold"), and otherwise leave
the flags as they were. -/
def classifyZone (flags : ZoneFlags) (distanceToZone buffer_zone_size : ℚ) : ZoneFlags :=
  if distanceToZone ≤ buffer_zone_size then
    { isInBufferZone := true, isInProtectedZone := false }
  else if distanceToZone ≤ buffer_zone_size + 1000 then
    { isInBufferZone := false, isInProtectedZone := true }
  else flags

/-- Model of `setBlurRadius(relevantZone.blur_radius || geofenceRules.default_blur_radius)`:
JavaScript `||` falls back to the default exactly when `blur_radius` is `0`. -/
def selectedBlurRadius (zone : GeofenceRule) (default_blur_radius : ℚ) : ℚ :=
  if zone.blur_radius = 0 then default_blur_radius else zone.blur_radius

/-- Written from the words of the spec, for comparison with the code: "Multiple
overlapping zones: the zone yielding the smallest (most restrictive) blur
radius wins." -/
def specWinningBlurRadius (rules : List GeofenceRule) : Option ℚ :=
  (rules.map (·.blur_radius)).min?

/-- The reachable values of the state `blurRadius` of the component: it starts
at `500`, the rules effect sets it to the blur radius of the relevant zone (or
the default), and the precision slider (`min="100" max="2000" step="100"`)
lets the contributor set any multiple of 100 between 100 and 2000. -/
inductive BlurRadiusReachable (zone : GeofenceRule) (default_blur_radius : ℚ) : ℚ → Prop
  | init : BlurRadiusReachable zone default_blur_radius 500
  | rulesLoaded (r : ℚ) :
      BlurRadiusReachable zone default_blur_radius r →
      BlurRadiusReachable zone default_blur_radius (selectedBlurRadius zone default_blur_radius)
  | slider (r : ℚ) (n : ℕ) :
      BlurRadiusReachable zone default_blur_radius r →
      1 ≤ n → n ≤ 20 →
      BlurRadiusReachable zone default_blur_radius (100 * n)

/-- The observation draft fields touched by `handleContinue`. -/
structure ObservationDraft where
  id : String
  category : Option String
  location : Coord
  location_precision_meters : ℚ
  is_private : Bool
  deriving DecidableEq, Repr

/-- The handler `handleContinue` of `UV_GEOFENCE_WARNING` (lines 478–497): it bails out
unless both an observation draft and a selected zone exist, then updates
the draft with the blurred coordinates, sets the disclosed precision to the
currently selected `blurRadius`, and always forces `is_private := true`. -/
def handleContinue (observationDraft : Option ObservationDraft)
    (selectedZone : Option GeofenceRule)
    (latitude longitude blurRadius : ℚ) (c u v : ℚ) : Option ObservationDraft :=
  match observationDraft, selectedZone with
  | some draft, some _ =>
      let blurredCoordinates := applyCoordinateBlurring ⟨latitude, longitude⟩ blurRadius c u v
      some { draft with
              location := blurredCoordinates
              location_precision_meters := blurRadius
              is_private := true }
  | _, _ => none

/-! Temporal validation (`UV_TEMPORAL_VALIDATION`, part_006)

The validation-window effect (lines 61–74):

```js
const minDate = new Date(); minDate.setDate(today.getDate() - dataRetentionDays);
const maxDate = new Date(); maxDate.setDate(today.getDate() + dataRetentionDays);
```

Time is modelled on an integer day line. -/

/-- The `{ min_date, max_date }` state of `UV_TEMPORAL_VALIDATION`. -/
structure ValidationWindow where
  min_date : ℤ
  max_date : ℤ
  deriving DecidableEq, Repr

/-- The window effect: `min_date = today − dataRetentionDays` and
`max_date = today + dataRetentionDays` (the retention window `W`). -/
def computeValidationWindow (today dataRetentionDays : ℤ) : ValidationWindow :=
  { min_date := today - dataRetentionDays, max_date := today + dataRetentionDays }

/-- The date input accepts exactly the timestamps between the `min` and `max` attributes of the window. -/
def windowContains (w : ValidationWindow) (t : ℤ) : Bool :=
  decide (w.min_date ≤ t ∧ t ≤ w.max_date)

/-- The constant `MAX_JUSTIFICATION_LENGTH` of `UV_TEMPORAL_VALIDATION`. -/
def MAX_JUSTIFICATION_LENGTH : ℕ := 500

/-- The justification textarea handler `onChange`: the new value is
accepted only when its length is at most `MAX_JUSTIFICATION_LENGTH`. -/
def justificationOnChange (current target : String) : String :=
  if target.length ≤ MAX_JUSTIFICATION_LENGTH then target else current

/-- The values the `justificationText` state can ever hold: it starts
empty and evolves only through `justificationOnChange`. -/
inductive JustificationReachable : String → Prop
  | init : JustificationReachable ""
  | change (s v : String) :
      JustificationReachable s → JustificationReachable (justificationOnChange s v)

/-- Model of the JavaScript string method `.trim()`: drop whitespace from
both ends (structurally recursive, so it evaluates on concrete strings). -/
def jsTrim (s : String) : String :=
  ⟨((s.data.dropWhile Char.isWhitespace).reverse.dropWhile Char.isWhitespace).reverse⟩

/-- The outcome of `handleSubmit`: either an early-returned validation
error (`setSubmitError`) or the justification submitted by
`submitJustification`. -/
inductive SubmitOutcome where
  | validationError (message : String)
  | submitted (justification_text : String)
  deriving DecidableEq, Repr

/-- The handler `handleSubmit` of `UV_TEMPORAL_VALIDATION` (lines 162–179): error if
the observation id is missing; error if the submission is retrospective
and the trimmed justification is empty (`isRetrospective && !justificationText.trim()`, with `jsTrim` modelling `.trim()`);
otherwise submit the justification. -/
def handleSubmit (observation_id : Option String) (isRetrospective : Bool)
    (justificationText : String) : SubmitOutcome :=
  match observation_id with
  | none => .validationError "Observation ID is missing. Cannot submit justification."
  | some _ =>
      if isRetrospective && jsTrim justificationText == "" then
        .validationError "Justification text is required for retrospective observations."
      else
        .submitted justificationText

/-- Does `handleSubmit` fail? -/
def SubmitOutcome.isError : SubmitOutcome → Bool
  | .validationError _ => true
  | .submitted _ => false

/-! Batch CSV validation (`UV_BATCH_SUBMISSION`, part_005)

`validateAndTransform` processes already column-mapped rows; string
parsing is abstracted by `pf` (`parseFloat`, `none` = `NaN`) and `pd`
(`new Date(...)`, `none` = invalid, otherwise the instant in days). -/

/-- A `mappedRow`: the CSV cells after column mapping; `none` models an
unmapped (`undefined`) field. -/
structure MappedRow where
  species_name : Option String := none
  observation_timestamp : Option String := none
  latitude : Option String := none
  longitude : Option String := none
  notes : Option String := none
  habitat_type : Option String := none
  deriving DecidableEq, Repr

/-- JavaScript truthiness of a possibly-missing string cell
(`undefined` and `""` are falsy). -/
def truthy : Option String → Bool
  | none => false
  | some s => !(s == "")

/-- A `ValidationIssue` (`suggested_correction`, a display-only hint,
is not modelled). -/
structure ValidationIssue where
  row_index : ℕ
  field : String
  message : String
  severity : String
  deriving DecidableEq, Repr

/-- A `BatchObservation` as assembled by `validateAndTransform`. -/
structure BatchObservation where
  user_id : String
  species_name : String
  observation_timestamp : String
  latitude : ℚ
  longitude : ℚ
  notes : String
  habitat_type : String
  is_private : Bool
  deriving DecidableEq, Repr

/-- A `BatchValidationResult`. -/
structure BatchValidationResult where
  valid_rows : List BatchObservation
  validation_errors : List ValidationIssue
  duplicate_observations : List BatchObservation
  deriving DecidableEq, Repr

/-- The required-fields pass over one row: each of `species_name`,
`observation_timestamp`, `latitude`, `longitude` that is falsy yields a
`"<field> is required"` error (`idx` is the displayed `rowIndex + 2`). -/
def requiredFieldIssues (row : MappedRow) (idx : ℕ) : List ValidationIssue :=
  (if truthy row.species_name then []
   else [⟨idx, "species_name", "species name is required", "error"⟩]) ++
  (if truthy row.observation_timestamp then []
   else [⟨idx, "observation_timestamp", "observation timestamp is required", "error"⟩]) ++
  (if truthy row.latitude then []
   else [⟨idx, "latitude", "latitude is required", "error"⟩]) ++
  (if truthy row.longitude then []
   else [⟨idx, "longitude", "longitude is required", "error"⟩])

/-- The two range checks of the coordinate pass (`errors.push` calls for
out-of-range latitude and longitude). -/
def coordinateRangeIssues (lat lng : ℚ) (idx : ℕ) : List ValidationIssue :=
  (if lat < -90 ∨ lat > 90 then
    [⟨idx, "latitude", "Latitude must be between -90 and 90", "error"⟩]
   else []) ++
  (if lng < -180 ∨ lng > 180 then
    [⟨idx, "longitude", "Longitude must be between -180 and 180", "error"⟩]
   else [])

/-- The coordinate pass over one row. `prior` is the list of issues already
recorded for this row (the source checks
`errors.filter(e => e.row_index === rowIndex + 2).length === 0` before
pushing the row into `valid_rows`; issue row indices are unique per row, so
only the prior issues of this row matter). Returns the coordinate issues and the
row to push, if any; the pushed row always carries `is_private := false`. -/
def coordinatePass (pf : String → Option ℚ) (currentUserId : String)
    (row : MappedRow) (idx : ℕ) (prior : List ValidationIssue) :
    List ValidationIssue × Option BatchObservation :=
  if truthy row.latitude && truthy row.longitude then
    match pf (row.latitude.getD ""), pf (row.longitude.getD "") with
    | some lat, some lng =>
        if prior ++ coordinateRangeIssues lat lng idx = [] then
          (coordinateRangeIssues lat lng idx,
           some { user_id := currentUserId
                  species_name := row.species_name.getD ""
                  observation_timestamp := row.observation_timestamp.getD ""
                  latitude := lat
                  longitude := lng
                  notes := row.notes.getD ""
                  habitat_type := row.habitat_type.getD ""
                  is_private := false })
        else (coordinateRangeIssues lat lng idx, none)
    | _, _ =>
        ([⟨idx, "coordinates", "Invalid coordinate format", "error"⟩], none)
  else ([], none)

/-- The date pass over one row: invalid dates are errors, dates strictly
later than `now` are errors, dates more than 90 days in the past are
warnings (the 90 is hard-coded via `ninetyDaysAgo`). -/
def datePass (pd : String → Option ℤ) (now : ℤ) (row : MappedRow) (idx : ℕ) :
    List ValidationIssue :=
  if truthy row.observation_timestamp then
    match pd (row.observation_timestamp.getD "") with
    | none => [⟨idx, "observation_timestamp", "Invalid date format", "error"⟩]
    | some date =>
        if date > now then
          [⟨idx, "observation_timestamp", "Observation date cannot be in the future", "error"⟩]
        else if date < now - 90 then
          [⟨idx, "observation_timestamp", "Observation date older than 90 days", "warning"⟩]
        else []
  else []

/-- One iteration of the `csvData.forEach` body of `validateAndTransform`:
required-fields issues, then the coordinate pass (which may push the row
into `valid_rows` when no issue was recorded for the row so far), then the
date pass. Note the date pass runs after the push decision. -/
def processRow (pf : String → Option ℚ) (pd : String → Option ℤ) (now : ℤ)
    (currentUserId : String) (row : MappedRow) (idx : ℕ) :
    List ValidationIssue × Option BatchObservation :=
  let reqIssues := requiredFieldIssues row idx
  let (coordIssues, pushed) := coordinatePass pf currentUserId row idx reqIssues
  (reqIssues ++ coordIssues ++ datePass pd now row idx, pushed)

/-- The function `validateAndTransform` of `UV_BATCH_SUBMISSION` (lines 182–303) over
the mapped CSV rows (an empty `csvData` yields the early-returned empty
result). `duplicate_observations` is returned as initialised: the function
never adds to it. -/
def validateAndTransform (pf : String → Option ℚ) (pd : String → Option ℤ)
    (now : ℤ) (currentUserId : String) (csvData : List MappedRow) :
    BatchValidationResult :=
  let processed := csvData.enum.map fun (rowIndex, row) =>
    processRow pf pd now currentUserId row (rowIndex + 2)
  { valid_rows := processed.filterMap (·.2)
    validation_errors := processed.flatMap (·.1)
    duplicate_observations := [] }

/-! Backend profile generation (`src/backend/server.ts`)

`generateUserProfileData` (lines 150–162) decorates a user row with mocked
profile fields; there are no observation, verification or credibility
endpoints anywhere in `server.ts`. -/

/-- A `users` table row as selected by the backend. -/
structure UserRow where
  id : String
  email : String
  full_name : String
  deriving DecidableEq, Repr

/-- The profile payload produced by `generateUserProfileData`. -/
structure UserProfileData where
  user : UserRow
  expertise_level : String
  primary_location : Option Coord
  interests : List String
  credibility_score : ℤ
  share_anonymized : Bool
  private_observations_visible : Bool
  deriving DecidableEq, Repr

/-- The function `generateUserProfileData` of `server.ts`: every profile read returns
`expertise_level: "beginner"`, no location, no interests, and
`credibility_score: 0`. -/
def generateUserProfileData (userData : UserRow) : UserProfileData :=
  { user := userData
    expertise_level := "beginner"
    primary_location := none
    interests := []
    credibility_score := 0
    share_anonymized := true
    private_observations_visible := false }

/-! Submission intake (spec-modelled)

The backend of the repository has no observation routes at all (`server.ts`
serves only authentication and user management); the idempotency-key retry
handling and the Conflict Detector exist only in the spec (§4.3, §6) and
in the e2e tests of the missing endpoints. They are modelled here from the
words of the spec. -/

/-- Modelled from the spec: an observation row as persisted by the
submission intake, which is missing from `src/` (spec §4.3: candidate
observation with species, coordinate cell, calendar day, contributor id,
optional client-generated idempotency key). -/
structure StoredObservation where
  idempotency_key : String
  contributor_id : String
  species : String
  cell_lat : ℤ
  cell_lng : ℤ
  day : ℤ
  deriving DecidableEq, Repr

/-- Modelled from the spec: the idempotency-key branch of the submission
intake, which is missing from `src/` — "If an existing observation shares
the same idempotency key → treat as a retry, not a conflict; return the
existing record unchanged (idempotent)." Otherwise the candidate is
persisted as a new row. -/
def ingestIdempotent (store : List StoredObservation) (o : StoredObservation) :
    List StoredObservation × StoredObservation :=
  match store.find? (fun e => e.idempotency_key == o.idempotency_key) with
  | some e => (store, e)
  | none => (store ++ [o], o)

/-- Iterated retries: `n + 1` successive submissions of the same candidate against the store
(retries of the same idempotency key). -/
def ingestIter (store : List StoredObservation) (o : StoredObservation) :
    ℕ → List StoredObservation × StoredObservation
  | 0 => ingestIdempotent store o
  | n + 1 => ingestIdempotent (ingestIter store o n).1 o

/-- The number of rows of the store carrying a given idempotency key. -/
def keyCount (store : List StoredObservation) (key : String) : ℕ :=
  store.countP (fun e => e.idempotency_key == key)

/-- Modelled from the spec: the resolution options offered on a detected
conflict — `keep_existing`, `keep_new`, `merge`. -/
inductive ResolutionOption where
  | keep_existing
  | keep_new
  | merge
  deriving DecidableEq, Repr

/-- Modelled from the spec: the per-candidate result of the Conflict
Detector. -/
structure ConflictOutcome where
  conflict_detected : Bool
  resolution_options : List ResolutionOption
  persisted : List StoredObservation
  deriving DecidableEq, Repr

/-- Modelled from the spec: spatial tolerance of §4.3 ("same rounded
coordinate cell") and temporal tolerance ("same calendar day") for two
observations of the same contributor. -/
def withinTolerance (a b : StoredObservation) : Bool :=
  a.contributor_id == b.contributor_id &&
  a.cell_lat == b.cell_lat && a.cell_lng == b.cell_lng && a.day == b.day

/-- Modelled from the spec: material difference between two nearby
observations ("differ in species or other material content"). -/
def materiallyDiffers (a b : StoredObservation) : Bool :=
  a.species != b.species

/-- Modelled from the spec: the Conflict Detector (§4.3), missing from
`src/` — for a candidate with a fresh idempotency key, if one or more of
the existing observations of the contributor fall within the spatial+temporal
tolerance but differ materially, mark `conflict_detected = true`, produce
the resolution-options list, and persist both records until a human picks
a resolution; otherwise accept normally. -/
def detectConflict (existing : List StoredObservation) (cand : StoredObservation) :
    ConflictOutcome :=
  if existing.any (fun e => withinTolerance e cand && materiallyDiffers e cand) then
    { conflict_detected := true
      resolution_options := [.keep_existing, .keep_new, .merge]
      persisted := existing ++ [cand] }
  else
    { conflict_detected := false
      resolution_options := []
      persisted := existing ++ [cand] }

/-! Theorems settling the claims -/

theorem round6_intCast (n : ℤ) : round6 ((n : ℚ)) = n := by
  unfold round6
  rw [show ((n : ℚ) * 1000000) = ((n * 1000000 : ℤ) : ℚ) by push_cast; ring]
  rw [round_intCast]
  push_cast
  field_simp

theorem justificationReachable_length_le {j : String}
    (h : JustificationReachable j) : j.length ≤ MAX_JUSTIFICATION_LENGTH := by
  induction h with
  | init => simp [MAX_JUSTIFICATION_LENGTH]
  | change s v _ ih =>
      unfold justificationOnChange
      split
      · assumption
      · exact ih

/-- C5: on a retrospective submission `handleSubmit` always fails with a
validation error when the trimmed justification text is empty, and every
justification it does submit is non-empty and at most
`MAX_JUSTIFICATION_LENGTH` (500) characters — the textarea guard bounds
every reachable `justificationText` value. -/
theorem c5_retrospective_justification
    (observation_id : Option String) (j : String)
    (hreach : JustificationReachable j) :
    (jsTrim j = "" → (handleSubmit observation_id true j).isError = true) ∧
    (∀ jt, handleSubmit observation_id true j = .submitted jt →
      jt ≠ "" ∧ jt.length ≤ MAX_JUSTIFICATION_LENGTH) := by
  constructor
  · intro htrim
    cases observation_id with
    | none => rfl
    | some oid => simp [handleSubmit, htrim, SubmitOutcome.isError]
  · intro jt hsub
    cases observation_id with
    | none => simp [handleSubmit] at hsub
    | some oid =>
        by_cases htrim : jsTrim j = ""
        · simp [handleSubmit, htrim] at hsub
        · have hne : (jsTrim j == "") = false := by
            simpa using htrim
          simp [handleSubmit, hne] at hsub
          subst hsub
          refine ⟨?_, justificationReachable_length_le hreach⟩
          intro hj
          apply htrim
          rw [hj]
          rfl

/-- Witness for C5: the initial (empty, reachable) justification on a
concrete observation id is rejected. -/
theorem c5_witness :
    (handleSubmit (some "obs-1") true "").isError = true :=
  (c5_retrospective_justification (some "obs-1") "" JustificationReachable.init).1 (by decide)

/-- C8: `generateUserProfileData` in `server.ts` hard-codes
`credibility_score: 0` on every profile read, so an observation reaching
`verified` can never raise the score of its owner — while the e2e test of
the verification workflow (part_001, lines 626–645) expects the score to
become positive after a tier-1 verification. -/
theorem c8_credibility_score_constant_zero (userData : UserRow) :
    (generateUserProfileData userData).credibility_score = 0 := rfl

/-- C10: `applyCoordinateBlurring` returns both axes quantized to exactly
six decimal places, and at blur radius 0 it returns the input coordinate
unchanged up to that six-decimal rounding (`c` is the cosine factor, which
is nonzero for every value `Math.cos` actually produces). -/
theorem c10_blurring_six_decimals_and_identity_at_zero
    (lat lng radius c u v : ℚ) (_hc : c ≠ 0) :
    (∃ m n : ℤ, applyCoordinateBlurring ⟨lat, lng⟩ radius c u v =
        ⟨(m : ℚ) / 1000000, (n : ℚ) / 1000000⟩) ∧
    applyCoordinateBlurring ⟨lat, lng⟩ 0 c u v = ⟨round6 lat, round6 lng⟩ := by
  refine ⟨⟨round ((lat + latOffset radius u) * 1000000),
          round ((lng + lngOffset radius c v) * 1000000), rfl⟩, ?_⟩
  simp [applyCoordinateBlurring, latOffset, lngOffset, zero_div]

/-- Witness for C10 at a concrete coordinate, radius, cosine factor and
random draws. -/
theorem c10_witness :
    (∃ m n : ℤ, applyCoordinateBlurring ⟨10, 20⟩ 500 1 (3/4) (1/4) =
        ⟨(m : ℚ) / 1000000, (n : ℚ) / 1000000⟩) ∧
    applyCoordinateBlurring ⟨10, 20⟩ 0 1 (3/4) (1/4) = ⟨round6 10, round6 20⟩ :=
  c10_blurring_six_decimals_and_identity_at_zero 10 20 500 1 (3/4) (1/4) (by norm_num)

/-- C2 counterexample: the claim asserts a per-axis offset magnitude
uniformly sampled in [0, radius]; the code draws `Math.random() − 0.5`, so
the normalized latitude offset `111 * latOffset radius u = radius·(u − 1/2)`
never exceeds half the radius in magnitude. With radius 2, every draw
`u ∈ [0, 1)` gives magnitude at most 1, and magnitude 3/2 — inside the
claimed range [0, 2] — is never attained. -/
theorem c2_counterexample :
    (∀ u : ℚ, 0 ≤ u → u < 1 → |111 * latOffset 2 u| ≤ 1) ∧
    ¬ ∃ u : ℚ, 0 ≤ u ∧ u < 1 ∧ |111 * latOffset 2 u| = 3/2 := by
  have key : ∀ u : ℚ, 111 * latOffset 2 u = 2 * u - 1 := by
    intro u; unfold latOffset; ring
  constructor
  · intro u h0 h1
    rw [key, abs_le]
    constructor <;> linarith
  · rintro ⟨u, h0, h1, he⟩
    have hle : |111 * latOffset 2 u| ≤ 1 := by
      rw [key, abs_le]; constructor <;> linarith
    rw [he] at hle
    norm_num at hle

/-- C2 amended: the per-axis offsets are `(radius/111)·(u − 1/2)` degrees
in latitude and `(radius/(111·c))·(v − 1/2)` degrees in longitude with
`u, v` drawn uniformly in [0, 1); normalized back into the unit of the
radius, each magnitude is bounded by `radius/2` (uniform over
[0, radius/2], half the range the claim states), and the perturbed
coordinate is then rounded to six decimals. -/
theorem c2_amended_offset_half_radius
    (radius u : ℚ) (hr : 0 ≤ radius) (h0 : 0 ≤ u) (h1 : u < 1) :
    |111 * latOffset radius u| ≤ radius / 2 ∧
    (∀ c v : ℚ, c ≠ 0 → 0 ≤ v → v < 1 →
      |111 * c * lngOffset radius c v| ≤ radius / 2) ∧
    (∀ lat lng c v : ℚ,
      (applyCoordinateBlurring ⟨lat, lng⟩ radius c u v).lat =
        round6 (lat + latOffset radius u)) := by
  have habs : |u - 1/2| ≤ 1/2 := by rw [abs_le]; constructor <;> linarith
  refine ⟨?_, ?_, fun lat lng c v => rfl⟩
  · have hkey : 111 * latOffset radius u = radius * (u - 1/2) := by
      unfold latOffset; ring
    rw [hkey, abs_mul, abs_of_nonneg hr]
    calc radius * |u - 1/2| ≤ radius * (1/2) := mul_le_mul_of_nonneg_left habs hr
      _ = radius / 2 := by ring
  · intro c v hc hv0 hv1
    have habsv : |v - 1/2| ≤ 1/2 := by rw [abs_le]; constructor <;> linarith
    have hkey : 111 * c * lngOffset radius c v = radius * (v - 1/2) := by
      unfold lngOffset
      field_simp
      ring
    rw [hkey, abs_mul, abs_of_nonneg hr]
    calc radius * |v - 1/2| ≤ radius * (1/2) := mul_le_mul_of_nonneg_left habsv hr
      _ = radius / 2 := by ring

/-- Witness for C2 amended at radius 2 and draw u = 3/4. -/
theorem c2_amended_witness :
    |111 * latOffset 2 (3/4)| ≤ (2 : ℚ) / 2 ∧
    (∀ c v : ℚ, c ≠ 0 → 0 ≤ v → v < 1 →
      |111 * c * lngOffset 2 c v| ≤ (2 : ℚ) / 2) ∧
    (∀ lat lng c v : ℚ,
      (applyCoordinateBlurring ⟨lat, lng⟩ 2 c (3/4) v).lat =
        round6 (lat + latOffset 2 (3/4))) :=
  c2_amended_offset_half_radius 2 (3/4) (by norm_num) (by norm_num) (by norm_num)

/-- C1 counterexample: a zone with blur radius 1000 m, the contributor at
a point the component classifies as inside the protected zone (distance
600 with buffer size 500 sets `isInProtectedZone`), and the slider moved
to 100 m — a reachable `blurRadius` value. `handleContinue` then records a
disclosed precision of 100 m, finer than the 1000 m blur radius of the
zone, refuting the invariant as stated (the `is_private = true` half does
hold: the produced draft is private). -/
theorem c1_counterexample :
    classifyZone { isInBufferZone := false, isInProtectedZone := false } 600 500 =
      { isInBufferZone := false, isInProtectedZone := true } ∧
    BlurRadiusReachable
      { zone_id := "zone-ia-1", iucn_category := "Ia", geometry := "POINT(-122.4194 37.7749)",
        buffer_zone_size := 500, blur_radius := 1000 } 500 100 ∧
    handleContinue
      (some { id := "obs-1", category := none, location := ⟨37, -122⟩,
              location_precision_meters := 10, is_private := false })
      (some { zone_id := "zone-ia-1", iucn_category := "Ia", geometry := "POINT(-122.4194 37.7749)",
              buffer_zone_size := 500, blur_radius := 1000 })
      37 (-122) 100 1 (1/2) (1/2) =
      some { id := "obs-1", category := none, location := ⟨37, -122⟩,
             location_precision_meters := 100, is_private := true } ∧
    ¬ ((100 : ℚ) ≥
        ({ zone_id := "zone-ia-1", iucn_category := "Ia", geometry := "POINT(-122.4194 37.7749)",
           buffer_zone_size := 500, blur_radius := 1000 } : GeofenceRule).blur_radius) := by
  have h37 : round6 37 = 37 := by simpa using round6_intCast 37
  have h122 : round6 (-122) = -122 := by simpa using round6_intCast (-122)
  refine ⟨by norm_num [classifyZone], ?_, ?_, by norm_num⟩
  · simpa using
      BlurRadiusReachable.slider 500 1 BlurRadiusReachable.init (by norm_num) (by norm_num)
  · norm_num [handleContinue, applyCoordinateBlurring, latOffset, lngOffset, h37, h122]

/-- C1 amended: whenever `handleContinue` fires (draft and zone both
present) it marks the draft `is_private = true` and sets the disclosed
precision to the currently selected `blurRadius` — a value the precision
slider lets the contributor set anywhere between 100 m and 2000 m,
independent of the blur radius configured on the zone. -/
theorem c1_amended_continue_private_and_selected_precision
    (draft : ObservationDraft) (zone : GeofenceRule)
    (latitude longitude blurRadius c u v : ℚ) (d' : ObservationDraft)
    (h : handleContinue (some draft) (some zone)
          latitude longitude blurRadius c u v = some d') :
    d'.is_private = true ∧ d'.location_precision_meters = blurRadius := by
  unfold handleContinue at h
  injection h with h
  rw [← h]
  exact ⟨rfl, rfl⟩

/-- Witness for C1 amended at a concrete draft, zone and slider value. -/
theorem c1_amended_witness :
    ({ id := "obs-1", category := none, location := ⟨37, -122⟩,
       location_precision_meters := 200, is_private := true } : ObservationDraft).is_private = true ∧
    ({ id := "obs-1", category := none, location := ⟨37, -122⟩,
       location_precision_meters := 200, is_private := true } : ObservationDraft).location_precision_meters = 200 :=
  c1_amended_continue_private_and_selected_precision
    { id := "obs-1", category := none, location := ⟨37, -122⟩,
      location_precision_meters := 10, is_private := false }
    { zone_id := "zone-ia-1", iucn_category := "Ia", geometry := "POINT(-122.4194 37.7749)",
      buffer_zone_size := 500, blur_radius := 1000 }
    37 (-122) 200 1 (1/2) (1/2)
    { id := "obs-1", category := none, location := ⟨37, -122⟩,
      location_precision_meters := 200, is_private := true }
    (by
      have h37 : round6 37 = 37 := by simpa using round6_intCast 37
      have h122 : round6 (-122) = -122 := by simpa using round6_intCast (-122)
      norm_num [handleContinue, applyCoordinateBlurring, latOffset, lngOffset, h37, h122])

/-- C3 counterexample: with two overlapping zones of blur radii 1000 and
100 the component selects the first rule, so the selected blur radius is
1000, not the smallest radius 100 demanded by the claim; moreover at
distance 0 — as deep inside a zone as possible — the classification sets
the buffer flag, not the protected flag. -/
theorem c3_counterexample :
    relevantZone
      [{ zone_id := "A", iucn_category := "II", geometry := "gA",
         buffer_zone_size := 500, blur_radius := 1000 },
       { zone_id := "B", iucn_category := "Ia", geometry := "gB",
         buffer_zone_size := 300, blur_radius := 100 }] =
      some { zone_id := "A", iucn_category := "II", geometry := "gA",
             buffer_zone_size := 500, blur_radius := 1000 } ∧
    selectedBlurRadius
      { zone_id := "A", iucn_category := "II", geometry := "gA",
        buffer_zone_size := 500, blur_radius := 1000 } 500 = 1000 ∧
    specWinningBlurRadius
      [{ zone_id := "A", iucn_category := "II", geometry := "gA",
         buffer_zone_size := 500, blur_radius := 1000 },
       { zone_id := "B", iucn_category := "Ia", geometry := "gB",
         buffer_zone_size := 300, blur_radius := 100 }] = some 100 ∧
    (1000 : ℚ) ≠ 100 ∧
    classifyZone { isInBufferZone := false, isInProtectedZone := false } 0 500 =
      { isInBufferZone := true, isInProtectedZone := false } := by
  refine ⟨rfl, by norm_num [selectedBlurRadius], ?_, by norm_num, by norm_num [classifyZone]⟩
  norm_num [specWinningBlurRadius, List.min?, List.foldl, min_def]

/-- C3 amended: the component uses the first returned rule regardless of
blur radii, and classifies from the distance `d` between the raw
coordinate and the current map center: buffer when `d ≤ buffer_zone_size`,
protected when `buffer_zone_size < d ≤ buffer_zone_size + 1000`, and the
flags are left unchanged otherwise. -/
theorem c3_amended_first_rule_and_thresholds
    (flags : ZoneFlags) (d b : ℚ) (z : GeofenceRule) (zs : List GeofenceRule) :
    relevantZone (z :: zs) = some z ∧
    (d ≤ b → classifyZone flags d b =
      { isInBufferZone := true, isInProtectedZone := false }) ∧
    (b < d → d ≤ b + 1000 → classifyZone flags d b =
      { isInBufferZone := false, isInProtectedZone := true }) ∧
    (b + 1000 < d → classifyZone flags d b = flags) := by
  refine ⟨rfl, ?_, ?_, ?_⟩
  · intro h
    simp [classifyZone, h]
  · intro h1 h2
    rw [classifyZone, if_neg (not_le.mpr h1), if_pos h2]
  · intro h
    rw [classifyZone, if_neg (not_le.mpr (by linarith)), if_neg (not_le.mpr h)]

/-- Witness for C3 amended: a distance inside the buffer threshold on a
concrete rule list. -/
theorem c3_amended_witness :
    classifyZone { isInBufferZone := false, isInProtectedZone := false } 400 500 =
      { isInBufferZone := true, isInProtectedZone := false } :=
  (c3_amended_first_rule_and_thresholds
      { isInBufferZone := false, isInProtectedZone := false } 400 500
      { zone_id := "A", iucn_category := "II", geometry := "gA",
        buffer_zone_size := 500, blur_radius := 1000 } []).2.1 (by norm_num)

/-- C4 counterexample: with `W = 90` the validation window of
`UV_TEMPORAL_VALIDATION` contains the future timestamp `today + 1`, and
the batch validator of `UV_BATCH_SUBMISSION`, fed one coordinate-valid row
dated one day in the future, flags the future date as an error yet still
places the row in `valid_rows` — so a future timestamp is not always
rejected. -/
theorem c4_counterexample :
    ((0 : ℤ) < 1 ∧ windowContains (computeValidationWindow 0 90) 1 = true) ∧
    (validateAndTransform
        (fun s => if s = "45.0" then some (45 : ℚ) else
                  if s = "-122.0" then some (-122) else none)
        (fun s => if s = "2099-01-01" then some (1 : ℤ) else none)
        0 "user-1"
        [{ species_name := some "Hawk", observation_timestamp := some "2099-01-01",
           latitude := some "45.0", longitude := some "-122.0",
           notes := none, habitat_type := none }]).valid_rows =
      [{ user_id := "user-1", species_name := "Hawk",
         observation_timestamp := "2099-01-01", latitude := 45, longitude := -122,
         notes := "", habitat_type := "", is_private := false }] ∧
    (validateAndTransform
        (fun s => if s = "45.0" then some (45 : ℚ) else
                  if s = "-122.0" then some (-122) else none)
        (fun s => if s = "2099-01-01" then some (1 : ℤ) else none)
        0 "user-1"
        [{ species_name := some "Hawk", observation_timestamp := some "2099-01-01",
           latitude := some "45.0", longitude := some "-122.0",
           notes := none, habitat_type := none }]).validation_errors =
      [{ row_index := 2, field := "observation_timestamp",
         message := "Observation date cannot be in the future", severity := "error" }] := by
  have hHawk : ¬ ("Hawk" : String) = "" := by decide
  have hts : ¬ ("2099-01-01" : String) = "" := by decide
  have hlat : ¬ ("45.0" : String) = "" := by decide
  have hlng : ¬ ("-122.0" : String) = "" := by decide
  have hq : ¬ ("-122.0" : String) = "45.0" := by decide
  refine ⟨⟨by norm_num, by decide⟩, ?_, ?_⟩ <;>
    · norm_num [validateAndTransform, processRow, requiredFieldIssues, coordinatePass,
        coordinateRangeIssues, datePass, truthy, List.enum, List.enumFrom,
        List.filterMap_cons, List.filterMap_nil, hHawk, hts, hlat, hlng, hq]

/-- C4 amended: the validation window spans `[today − W, today + W]`, so a
future timestamp is in range exactly when it is at most `W` days ahead;
the batch validator does flag every timestamp strictly later than now with
a severity-error issue (but the push into `valid_rows` happens before the
date pass runs). -/
theorem c4_amended_window_and_future_flag
    (today W t : ℤ) (pd : String → Option ℤ) (now d : ℤ) (row : MappedRow) (idx : ℕ) :
    (windowContains (computeValidationWindow today W) t = true ↔
      today - W ≤ t ∧ t ≤ today + W) ∧
    (truthy row.observation_timestamp = true →
     pd (row.observation_timestamp.getD "") = some d →
     now < d →
     datePass pd now row idx =
       [{ row_index := idx, field := "observation_timestamp",
          message := "Observation date cannot be in the future", severity := "error" }]) := by
  constructor
  · simp [windowContains, computeValidationWindow]
  · intro ht hpd hlt
    simp [datePass, ht, hpd, hlt]

/-- Witness for C4 amended: the future-date error issue on a concrete row
one day ahead of now. -/
theorem c4_amended_witness :
    datePass (fun s => if s = "2099-01-01" then some (1 : ℤ) else none) 0
      { species_name := some "Hawk", observation_timestamp := some "2099-01-01",
        latitude := some "45.0", longitude := some "-122.0",
        notes := none, habitat_type := none } 2 =
      [{ row_index := 2, field := "observation_timestamp",
         message := "Observation date cannot be in the future", severity := "error" }] :=
  (c4_amended_window_and_future_flag 0 90 1
      (fun s => if s = "2099-01-01" then some (1 : ℤ) else none) 0 1
      { species_name := some "Hawk", observation_timestamp := some "2099-01-01",
        latitude := some "45.0", longitude := some "-122.0",
        notes := none, habitat_type := none } 2).2
    (by decide) (by simp) (by norm_num)

theorem coordinatePass_is_private (pf : String → Option ℚ) (currentUserId : String)
    (row : MappedRow) (idx : ℕ) (prior : List ValidationIssue)
    {issues : List ValidationIssue} {o : BatchObservation}
    (h : coordinatePass pf currentUserId row idx prior = (issues, some o)) :
    o.is_private = false := by
  unfold coordinatePass at h
  repeat' split at h
  all_goals
    first
      | (simp only [Prod.mk.injEq, Option.some.injEq] at h
         obtain ⟨-, h2⟩ := h
         exact h2 ▸ rfl)
      | simp at h

theorem processRow_snd (pf : String → Option ℚ) (pd : String → Option ℤ)
    (now : ℤ) (currentUserId : String) (row : MappedRow) (idx : ℕ) :
    (processRow pf pd now currentUserId row idx).2 =
      (coordinatePass pf currentUserId row idx (requiredFieldIssues row idx)).2 := by
  rcases hcp : coordinatePass pf currentUserId row idx (requiredFieldIssues row idx)
    with ⟨ci, po⟩
  simp [processRow, hcp]

theorem processRow_pushed_is_private (pf : String → Option ℚ) (pd : String → Option ℤ)
    (now : ℤ) (currentUserId : String) (row : MappedRow) (idx : ℕ)
    {issues : List ValidationIssue} {o : BatchObservation}
    (h : processRow pf pd now currentUserId row idx = (issues, some o)) :
    o.is_private = false := by
  have h2 : (coordinatePass pf currentUserId row idx (requiredFieldIssues row idx)).2 =
      some o := by
    rw [← processRow_snd pf pd now currentUserId row idx, h]
  rcases hcp : coordinatePass pf currentUserId row idx (requiredFieldIssues row idx)
    with ⟨ci, po⟩
  rw [hcp] at h2
  have h3 : po = some o := h2
  exact coordinatePass_is_private pf currentUserId row idx (requiredFieldIssues row idx)
    (hcp.trans (by rw [h3]))

/-- C9: every observation assembled by the batch CSV validator of
`UV_BATCH_SUBMISSION` carries `is_private = false`, and its duplicate list
is always empty; the validator takes no protected-zone input at all, so
the batch path never consults the Location Privacy Transform. -/
theorem c9_batch_rows_never_private
    (pf : String → Option ℚ) (pd : String → Option ℤ) (now : ℤ)
    (currentUserId : String) (csvData : List MappedRow) :
    (∀ o ∈ (validateAndTransform pf pd now currentUserId csvData).valid_rows,
       o.is_private = false) ∧
    (validateAndTransform pf pd now currentUserId csvData).duplicate_observations = [] := by
  refine ⟨?_, rfl⟩
  intro o ho
  simp only [validateAndTransform, List.mem_filterMap, List.mem_map] at ho
  obtain ⟨p, ⟨⟨i, r⟩, hmem, hfp⟩, hsnd⟩ := ho
  have hpr : processRow pf pd now currentUserId r (i + 2) = (p.1, some o) := by
    rw [hfp]
    exact Prod.ext rfl hsnd
  exact processRow_pushed_is_private pf pd now currentUserId r (i + 2) hpr

/-- Witness for C9: a concrete coordinate-valid row is accepted with
`is_private = false`. -/
theorem c9_witness :
    ({ user_id := "user-1", species_name := "Hawk",
       observation_timestamp := "2020-01-01", latitude := 45, longitude := -122,
       notes := "", habitat_type := "", is_private := false } : BatchObservation).is_private
      = false :=
  (c9_batch_rows_never_private
      (fun s => if s = "45.0" then some (45 : ℚ) else
                if s = "-122.0" then some (-122) else none)
      (fun s => if s = "2020-01-01" then some (0 : ℤ) else none)
      0 "user-1"
      [{ species_name := some "Hawk", observation_timestamp := some "2020-01-01",
         latitude := some "45.0", longitude := some "-122.0",
         notes := none, habitat_type := none }]).1
    { user_id := "user-1", species_name := "Hawk",
      observation_timestamp := "2020-01-01", latitude := 45, longitude := -122,
      notes := "", habitat_type := "", is_private := false }
    (by
      have hHawk : ¬ ("Hawk" : String) = "" := by decide
      have hts : ¬ ("2020-01-01" : String) = "" := by decide
      have hlat : ¬ ("45.0" : String) = "" := by decide
      have hlng : ¬ ("-122.0" : String) = "" := by decide
      have hq : ¬ ("-122.0" : String) = "45.0" := by decide
      norm_num [validateAndTransform, processRow, requiredFieldIssues, coordinatePass,
        coordinateRangeIssues, datePass, truthy, List.enum, List.enumFrom,
        hHawk, hts, hlat, hlng, hq])

theorem ingestIdempotent_fixed (store : List StoredObservation) (o : StoredObservation) :
    ingestIdempotent (ingestIdempotent store o).1 o = ingestIdempotent store o := by
  unfold ingestIdempotent
  rcases hf : store.find? (fun e => e.idempotency_key == o.idempotency_key) with _ | e
  · have happ : (store ++ [o]).find?
        (fun e => e.idempotency_key == o.idempotency_key) = some o := by
      rw [List.find?_append, hf]
      simp [List.find?]
    simp [hf, happ]
  · simp [hf]

/-- C6 (spec-modelled): a submission whose idempotency key matches an
existing observation returns the existing record with the store unchanged,
every retry (any number of repetitions) produces the same result as the
first submission, and the number of rows carrying the key never exceeds
one. -/
theorem c6_idempotency_key_retry
    (store : List StoredObservation) (o : StoredObservation) (n : ℕ)
    (h : keyCount store o.idempotency_key ≤ 1) :
    (∀ e, store.find? (fun x => x.idempotency_key == o.idempotency_key) = some e →
       ingestIdempotent store o = (store, e)) ∧
    ingestIter store o n = ingestIdempotent store o ∧
    keyCount (ingestIter store o n).1 o.idempotency_key ≤ 1 := by
  have hiter : ∀ m, ingestIter store o m = ingestIdempotent store o := by
    intro m
    induction m with
    | zero => rfl
    | succ k ih => rw [ingestIter, ih, ingestIdempotent_fixed]
  refine ⟨?_, hiter n, ?_⟩
  · intro e he
    unfold ingestIdempotent
    rw [he]
  · rw [hiter n]
    unfold ingestIdempotent keyCount
    rcases hf : store.find? (fun x => x.idempotency_key == o.idempotency_key) with _ | e
    · have h0 : store.countP (fun x => x.idempotency_key == o.idempotency_key) = 0 := by
        rw [List.countP_eq_zero]
        intro x hx
        simpa using List.find?_eq_none.mp hf x hx
      simp only [hf]
      rw [List.countP_append, h0]
      simp
    · simp only [hf]
      simpa [keyCount] using h

/-- Witness for C6 on an initially empty store and three retries. -/
theorem c6_witness :
    (∀ e, ([] : List StoredObservation).find?
        (fun x => x.idempotency_key ==
          (⟨"k1", "user-1", "Hawk", 1, 2, 0⟩ : StoredObservation).idempotency_key) = some e →
       ingestIdempotent [] ⟨"k1", "user-1", "Hawk", 1, 2, 0⟩ = ([], e)) ∧
    ingestIter [] ⟨"k1", "user-1", "Hawk", 1, 2, 0⟩ 3 =
      ingestIdempotent [] ⟨"k1", "user-1", "Hawk", 1, 2, 0⟩ ∧
    keyCount (ingestIter [] ⟨"k1", "user-1", "Hawk", 1, 2, 0⟩ 3).1
      (⟨"k1", "user-1", "Hawk", 1, 2, 0⟩ : StoredObservation).idempotency_key ≤ 1 :=
  c6_idempotency_key_retry [] ⟨"k1", "user-1", "Hawk", 1, 2, 0⟩ 3 (by simp [keyCount])

/-- C7 (spec-modelled): a candidate falling within the spatial and
temporal tolerance of an existing observation of the same contributor but
differing materially is marked `conflict_detected = true`, yields the
resolution options `keep_existing`, `keep_new`, `merge`, and both records
persist. -/
theorem c7_conflict_detection_and_options
    (existing : List StoredObservation) (cand e : StoredObservation)
    (he : e ∈ existing)
    (htol : withinTolerance e cand = true)
    (hdiff : materiallyDiffers e cand = true) :
    (detectConflict existing cand).conflict_detected = true ∧
    (detectConflict existing cand).resolution_options =
      [ResolutionOption.keep_existing, ResolutionOption.keep_new, ResolutionOption.merge] ∧
    e ∈ (detectConflict existing cand).persisted ∧
    cand ∈ (detectConflict existing cand).persisted := by
  have hany : existing.any
      (fun x => withinTolerance x cand && materiallyDiffers x cand) = true := by
    rw [List.any_eq_true]
    exact ⟨e, he, by rw [htol, hdiff]; rfl⟩
  unfold detectConflict
  rw [if_pos hany]
  refine ⟨rfl, rfl, ?_, ?_⟩
  · simp [he]
  · simp

/-- Witness for C7: two same-cell, same-day observations of one
contributor with different species. -/
theorem c7_witness :
    (detectConflict [⟨"k1", "user-1", "Sparrow", 10, 20, 5⟩]
        ⟨"k2", "user-1", "Hawk", 10, 20, 5⟩).conflict_detected = true ∧
    (detectConflict [⟨"k1", "user-1", "Sparrow", 10, 20, 5⟩]
        ⟨"k2", "user-1", "Hawk", 10, 20, 5⟩).resolution_options =
      [ResolutionOption.keep_existing, ResolutionOption.keep_new, ResolutionOption.merge] ∧
    (⟨"k1", "user-1", "Sparrow", 10, 20, 5⟩ : StoredObservation) ∈
      (detectConflict [⟨"k1", "user-1", "Sparrow", 10, 20, 5⟩]
        ⟨"k2", "user-1", "Hawk", 10, 20, 5⟩).persisted ∧
    (⟨"k2", "user-1", "Hawk", 10, 20, 5⟩ : StoredObservation) ∈
      (detectConflict [⟨"k1", "user-1", "Sparrow", 10, 20, 5⟩]
        ⟨"k2", "user-1", "Hawk", 10, 20, 5⟩).persisted :=
  c7_conflict_detection_and_options [⟨"k1", "user-1", "Sparrow", 10, 20, 5⟩]
    ⟨"k2", "user-1", "Hawk", 10, 20, 5⟩ ⟨"k1", "user-1", "Sparrow", 10, 20, 5⟩
    (by simp) (by decide) (by decide)

end EcoPulse

